import Mathlib

/-!
Verification of the UPPETIT tax-burden calculator core.

The development shallowly embeds `app/calculator.py` (pure calculation
pipeline) and the relevant validator of `app/schemas.py` into Lean.
Python floats are modelled as exact rationals (`ℚ`); numeric literals such
as `0.33` elaborate to the exact rational 33/100.  Optional values
(`Optional[float]`, the guarded ratio fields) are modelled as `Option ℚ`.
-/

namespace TaxCalc

/-- `ANNUAL_FIXED_INSURANCE_RUB = 2900.0` (calculator.py line 13). -/
def ANNUAL_FIXED_INSURANCE_RUB : ℚ := 2900

/-- `FIXED_INSURANCE_RUB = ANNUAL_FIXED_INSURANCE_RUB / 12.0` (calculator.py line 14). -/
def FIXED_INSURANCE_RUB : ℚ := ANNUAL_FIXED_INSURANCE_RUB / 12

/-- The frozen dataclass `Inputs` of calculator.py: 3 revenue fields,
24 expense fields and the optional white-payroll override. -/
structure Inputs where
  turnover_total : ℚ
  gross_profit : ℚ
  turnover_aggregator : ℚ
  rent : ℚ
  subrent : ℚ
  electricity : ℚ
  other_utilities : ℚ
  payroll_total : ℚ
  white_payroll_override : Option ℚ
  office_supplies : ℚ
  other_purchases_outside_opticom : ℚ
  write_offs : ℚ
  meal_compensation : ℚ
  other_write_offs : ℚ
  security : ℚ
  internet : ℚ
  maintenance : ℚ
  other_repairs : ℚ
  cash_service : ℚ
  mobile_connection : ℚ
  bank_services : ℚ
  uniform : ℚ
  fiscal_device : ℚ
  neo_service : ℚ
  garbage_cleaning : ℚ
  disinfection : ℚ
  promo_materials : ℚ
  inventory_result : ℚ

/-- The frozen dataclass `Derived` of calculator.py. -/
structure Derived where
  royalty : ℚ
  white_payroll : ℚ
  aggregator_commission : ℚ
  fixed_insurance : ℚ
  acquiring : ℚ

/-- The frozen dataclass `Results` of calculator.py (the `inputs` echo and
`derived` echo are kept as fields, as in the source). -/
structure Results where
  inputs : Inputs
  derived : Derived
  expenses : ℚ
  profit_before_tax : ℚ
  margin : Option ℚ
  profitability : Option ℚ
  taxable_profit : ℚ
  ausn_tax : ℚ
  ndfl_tax : ℚ
  total_tax : ℚ
  tax_burden_vs_turnover : Option ℚ
  tax_burden_vs_profit : Option ℚ

/-- `compute_white_payroll` (calculator.py lines 88-94):
override if it is not None and > 0, else `payroll_total * 0.33`. -/
def compute_white_payroll (payroll_total : ℚ) (white_payroll_override : Option ℚ) : ℚ :=
  match white_payroll_override with
  | some v => if v > 0 then v else payroll_total * 0.33
  | none => payroll_total * 0.33

/-- `derive_values` (calculator.py lines 97-109). -/
def derive_values (inp : Inputs) : Derived :=
  { royalty := inp.turnover_total * 0.04
    white_payroll := compute_white_payroll inp.payroll_total inp.white_payroll_override
    aggregator_commission := inp.turnover_aggregator * 0.35
    fixed_insurance := FIXED_INSURANCE_RUB
    acquiring := (inp.turnover_total - inp.turnover_aggregator) * 0.01 * 0.95 }

/-- `calculate_expenses` (calculator.py lines 112-143): the single flat sum
of the raw cost fields and the derived values (white_payroll absent). -/
def calculate_expenses (inp : Inputs) (d : Derived) : ℚ :=
  inp.rent
    + inp.subrent
    + inp.electricity
    + inp.other_utilities
    + inp.payroll_total
    + d.royalty
    + d.aggregator_commission
    + d.fixed_insurance
    + d.acquiring
    + inp.office_supplies
    + inp.other_purchases_outside_opticom
    + inp.write_offs
    + inp.meal_compensation
    + inp.other_write_offs
    + inp.security
    + inp.internet
    + inp.maintenance
    + inp.other_repairs
    + inp.cash_service
    + inp.mobile_connection
    + inp.bank_services
    + inp.uniform
    + inp.fiscal_device
    + inp.neo_service
    + inp.garbage_cleaning
    + inp.disinfection
    + inp.promo_materials
    + inp.inventory_result

/-- `calculate_taxable_profit` (calculator.py lines 146-178):
`gp - group_a - group_b - group_c`. -/
def calculate_taxable_profit (inp : Inputs) (d : Derived) : ℚ :=
  let gp := inp.gross_profit
  let group_a := inp.rent + inp.subrent + inp.electricity + inp.other_utilities + d.royalty
  let group_b :=
    d.white_payroll
      + d.aggregator_commission
      + d.fixed_insurance
      + d.acquiring
      + inp.office_supplies
      + inp.other_purchases_outside_opticom
      + inp.write_offs
      + inp.meal_compensation
      + inp.other_write_offs
  let group_c :=
    inp.security
      + inp.internet
      + inp.maintenance
      + inp.other_repairs
      + inp.cash_service
      + inp.mobile_connection
      + inp.bank_services
      + inp.uniform
      + inp.fiscal_device
      + inp.neo_service
      + inp.garbage_cleaning
      + inp.disinfection
      + inp.promo_materials
      + inp.inventory_result
  gp - group_a - group_b - group_c

/-- `calculate_all` (calculator.py lines 181-207). -/
def calculate_all (inp : Inputs) : Results :=
  let d := derive_values inp
  let expenses := calculate_expenses inp d
  let profit_before_tax := inp.gross_profit - expenses
  let margin := if inp.turnover_total > 0 then some (inp.gross_profit / inp.turnover_total) else none
  let profitability :=
    if inp.turnover_total > 0 then some (profit_before_tax / inp.turnover_total) else none
  let taxable_profit := calculate_taxable_profit inp d
  let ausn_tax := max (taxable_profit * 0.20) (inp.turnover_total * 0.03)
  let ndfl_tax := d.white_payroll * 0.13
  let total_tax := ausn_tax + ndfl_tax + d.fixed_insurance
  let tax_burden_vs_turnover :=
    if inp.turnover_total > 0 then some (total_tax / inp.turnover_total) else none
  let tax_burden_vs_profit :=
    if profit_before_tax > 0 then some (total_tax / profit_before_tax) else none
  { inputs := inp
    derived := d
    expenses := expenses
    profit_before_tax := profit_before_tax
    margin := margin
    profitability := profitability
    taxable_profit := taxable_profit
    ausn_tax := ausn_tax
    ndfl_tax := ndfl_tax
    total_tax := total_tax
    tax_burden_vs_turnover := tax_burden_vs_turnover
    tax_burden_vs_profit := tax_burden_vs_profit }

/-! ### Presentation formatting (calculator.py lines 210-231)

Python's `f"{value:,.2f}"` renders the value rounded to two decimal places
(ties to even), with the integer part grouped in threes by commas.  We model
it digit by digit over `ℤ`/`ℕ` so that the kernel can evaluate it. -/

/-- The decimal digit character for `n % 10`. -/
def digitChar (n : ℕ) : Char := Char.ofNat (48 + n % 10)

/-- Decimal digits of a natural number, most significant first
(`fuel` bounds the recursion depth; it is never reached for `fuel > n`). -/
def natDigitsAux : ℕ → ℕ → List Char
  | 0, _ => []
  | _ + 1, 0 => []
  | fuel + 1, n => natDigitsAux fuel (n / 10) ++ [digitChar (n % 10)]

/-- Decimal representation of a natural number as a digit list. -/
def natDigits (n : ℕ) : List Char :=
  if n = 0 then ['0'] else natDigitsAux (n + 1) n

/-- Insert a comma after every three digits, counting from the right
(input and output are reversed digit lists). -/
def groupThousandsAux : List Char → List Char
  | a :: b :: c :: d :: rest => a :: b :: c :: ',' :: groupThousandsAux (d :: rest)
  | l => l

/-- Group a digit list in threes with commas, as `f"{n:,}"` does. -/
def groupThousands (s : List Char) : List Char :=
  (groupThousandsAux s.reverse).reverse

/-- The value in cents, rounded half to even: the number `k` such that
`k / 100` is the 2-decimal rounding of `q` that `f"{q:,.2f}"` prints.
Computed from the reduced fraction `q.num / q.den`:
`f` is the floor of `100 * q` and `r` the remainder, so the fractional part
of `100 * q` is `r / d`, compared against 1/2 via `2 * r` vs `d`. -/
def centsHalfEven (q : ℚ) : ℤ :=
  let a : ℤ := 100 * q.num
  let d : ℤ := (q.den : ℤ)
  let f : ℤ := Int.fdiv a d
  let r : ℤ := a - d * f
  if 2 * r < d then f
  else if d < 2 * r then f + 1
  else if f % 2 = 0 then f else f + 1

/-- `f"{q:,.2f}"`: sign, comma-grouped integer part, dot, two fraction
digits. -/
def formatFixed2 (q : ℚ) : String :=
  let cents := centsHalfEven q
  let n := cents.natAbs
  let sign := if q.num < 0 then "-" else ""
  let intPart := String.mk (groupThousands (natDigits (n / 100)))
  let fracPart := String.mk [digitChar (n % 100 / 10), digitChar (n % 10)]
  sign ++ intPart ++ "." ++ fracPart

/-- `.replace(",", " ")` for the single-character pattern used in the
source. -/
def replaceCommaBySpace (s : String) : String :=
  String.mk (s.data.map fun c => if c = ',' then ' ' else c)

/-- Python's `str.rstrip(c)` for a one-character argument: drop every
trailing occurrence of `c`. -/
def rstrip (c : Char) (s : String) : String :=
  String.mk (s.data.reverse.dropWhile (fun x => x == c)).reverse

/-- `format_money` (calculator.py lines 210-222): None renders as a dash;
otherwise format with two decimals, replace comma grouping by spaces, and
when a dot is present trim trailing zeros and then the dot. -/
def format_money : Option ℚ → String
  | none => "-"
  | some value =>
    let rounded := replaceCommaBySpace (formatFixed2 value)
    if rounded.data.contains '.' then rstrip '.' (rstrip '0' rounded) else rounded

/-- `format_percent` (calculator.py lines 225-231): None renders as a dash;
otherwise multiply by 100, format, trim, and append a percent sign. -/
def format_percent : Option ℚ → String
  | none => "-"
  | some value =>
    let percent := value * 100
    let txt := replaceCommaBySpace (formatFixed2 percent)
    let txt := rstrip '.' (rstrip '0' txt)
    txt ++ "%"

/-! ### The aggregator-vs-total validator (schemas.py lines 63-74)

`CalcForm._aggregator_not_more_than_total` raises its `ValueError` inside a
`try` block whose `except Exception: pass` clause swallows every exception,
after which the validator falls through to `return v`.  We embed the
try/except control flow explicitly. -/

/-- Outcome of a Python validator call: either it returns a value or an
exception escapes it. -/
inductive PyResult (α : Type) where
  | ok (v : α)
  | raised (msg : String)
deriving DecidableEq, Repr

/-- The body of the `try` block of `_aggregator_not_more_than_total`:
when the total is known and `v > total` it raises, otherwise it passes. -/
def aggregatorCheckTryBlock (v : ℚ) (total : Option ℚ) : PyResult Unit :=
  match total with
  | some t =>
    if v > t then .raised "aggregator turnover must not exceed total turnover" else .ok ()
  | none => .ok ()

/-- `_aggregator_not_more_than_total` (schemas.py lines 63-74): run the try
block; `except Exception: pass` swallows a raised error, and either way the
function reaches `return v`. -/
def aggregator_not_more_than_total (v : ℚ) (total : Option ℚ) : PyResult ℚ :=
  match aggregatorCheckTryBlock v total with
  | .raised _ => .ok v
  | .ok _ => .ok v

/-! ### Concrete inputs used by the witnesses -/

/-- The all-zero input record (the zero-turnover edge case of the test
suite): every numeric field 0, no override. -/
def zeroInputs : Inputs :=
  { turnover_total := 0
    gross_profit := 0
    turnover_aggregator := 0
    rent := 0
    subrent := 0
    electricity := 0
    other_utilities := 0
    payroll_total := 0
    white_payroll_override := none
    office_supplies := 0
    other_purchases_outside_opticom := 0
    write_offs := 0
    meal_compensation := 0
    other_write_offs := 0
    security := 0
    internet := 0
    maintenance := 0
    other_repairs := 0
    cash_service := 0
    mobile_connection := 0
    bank_services := 0
    uniform := 0
    fiscal_device := 0
    neo_service := 0
    garbage_cleaning := 0
    disinfection := 0
    promo_materials := 0
    inventory_result := 0 }

/-! ### Claims -/

/-- C1: for every input, taxable profit equals gross profit minus the three
cost groups: Group A (rent, subrent, electricity, other utilities, royalty),
Group B (white_payroll — not payroll_total — aggregator commission, fixed
insurance, acquiring, office supplies, other purchases, write-offs, meal
compensation, other write-offs) and Group C (the remaining 14 fields). -/
theorem C1_taxable_profit_three_groups (inp : Inputs) :
    (calculate_all inp).taxable_profit =
      inp.gross_profit -
        ((inp.rent + inp.subrent + inp.electricity + inp.other_utilities
            + (derive_values inp).royalty)
          + ((derive_values inp).white_payroll + (derive_values inp).aggregator_commission
              + (derive_values inp).fixed_insurance + (derive_values inp).acquiring
              + inp.office_supplies + inp.other_purchases_outside_opticom + inp.write_offs
              + inp.meal_compensation + inp.other_write_offs)
          + (inp.security + inp.internet + inp.maintenance + inp.other_repairs
              + inp.cash_service + inp.mobile_connection + inp.bank_services + inp.uniform
              + inp.fiscal_device + inp.neo_service + inp.garbage_cleaning + inp.disinfection
              + inp.promo_materials + inp.inventory_result)) := by
  simp only [calculate_all, calculate_taxable_profit]
  ring

/-- C2: for every input, total expenses is the sum of the raw cost fields
(payroll_total included) plus the derived royalty, aggregator commission,
fixed insurance and acquiring; and it does not depend on the white-payroll
override, hence white_payroll never enters this sum. -/
theorem C2_expenses_raw_fields_plus_derived (inp : Inputs) (ov : Option ℚ) :
    (calculate_all inp).expenses =
      (inp.payroll_total + inp.rent + inp.subrent + inp.electricity + inp.other_utilities
          + inp.office_supplies + inp.other_purchases_outside_opticom + inp.write_offs
          + inp.meal_compensation + inp.other_write_offs + inp.security + inp.internet
          + inp.maintenance + inp.other_repairs + inp.cash_service + inp.mobile_connection
          + inp.bank_services + inp.uniform + inp.fiscal_device + inp.neo_service
          + inp.garbage_cleaning + inp.disinfection + inp.promo_materials
          + inp.inventory_result)
        + (derive_values inp).royalty + (derive_values inp).aggregator_commission
        + (derive_values inp).fixed_insurance + (derive_values inp).acquiring
    ∧ (calculate_all { inp with white_payroll_override := ov }).expenses =
        (calculate_all inp).expenses := by
  constructor
  · simp only [calculate_all, calculate_expenses]
    ring
  · simp only [calculate_all, calculate_expenses, derive_values]

/-- C3: for every input the primary tax is the maximum of 20% of the tax
base and 3% of total turnover; and when the tax base is negative (with
non-negative turnover, as validation guarantees) the turnover floor
dominates. -/
theorem C3_ausn_tax_minimum_floor (inp : Inputs) :
    (calculate_all inp).ausn_tax =
      max ((calculate_all inp).taxable_profit * 0.20) (inp.turnover_total * 0.03)
    ∧ ((calculate_all inp).taxable_profit < 0 → 0 ≤ inp.turnover_total →
        (calculate_all inp).ausn_tax = inp.turnover_total * 0.03) := by
  constructor
  · simp only [calculate_all]
  · intro hneg hto
    simp only [calculate_all] at hneg ⊢
    rw [max_eq_right]
    have h1 : calculate_taxable_profit inp (derive_values inp) * 0.20 < 0 :=
      mul_neg_of_neg_of_pos hneg (by norm_num)
    have h2 : (0 : ℚ) ≤ inp.turnover_total * 0.03 :=
      mul_nonneg hto (by norm_num)
    linarith

/-- Witness for C3 at the all-zero input, whose tax base is
`-2900/12 < 0` while the turnover is 0, so the 3% floor dominates. -/
theorem C3_ausn_tax_minimum_floor_witness :
    (calculate_all zeroInputs).taxable_profit < 0
    ∧ (0 : ℚ) ≤ zeroInputs.turnover_total
    ∧ (calculate_all zeroInputs).ausn_tax = zeroInputs.turnover_total * 0.03 := by
  have h1 : (calculate_all zeroInputs).taxable_profit < 0 := by
    simp only [calculate_all, calculate_taxable_profit, derive_values, compute_white_payroll,
      zeroInputs, FIXED_INSURANCE_RUB, ANNUAL_FIXED_INSURANCE_RUB]
    norm_num
  have h2 : (0 : ℚ) ≤ zeroInputs.turnover_total := le_refl 0
  exact ⟨h1, h2, (C3_ausn_tax_minimum_floor zeroInputs).2 h1 h2⟩

/-- C4: the white payroll is the override exactly when the override is
present and strictly positive; an absent override, or a present override
that is zero or negative, yields `payroll_total * 0.33`. -/
theorem C4_white_payroll_override_rule (pt : ℚ) (ov : Option ℚ) :
    compute_white_payroll pt none = pt * 0.33
    ∧ (∀ v, ov = some v → 0 < v → compute_white_payroll pt ov = v)
    ∧ (∀ v, ov = some v → v ≤ 0 → compute_white_payroll pt ov = pt * 0.33) := by
  refine ⟨rfl, ?_, ?_⟩
  · rintro v rfl hv
    simp only [compute_white_payroll, if_pos hv]
  · rintro v rfl hv
    simp only [compute_white_payroll, if_neg (not_lt.mpr hv)]

/-- Witness for C4: the three branches at the test suite's concrete
values (no override, positive override 50000, negative override -1). -/
theorem C4_white_payroll_override_rule_witness :
    compute_white_payroll 100000 none = 100000 * 0.33
    ∧ ((0 : ℚ) < 50000 ∧ compute_white_payroll 120000 (some 50000) = 50000)
    ∧ ((-1 : ℚ) ≤ 0 ∧ compute_white_payroll 90000 (some (-1)) = 90000 * 0.33) :=
  ⟨(C4_white_payroll_override_rule 100000 none).1,
    ⟨by norm_num,
      (C4_white_payroll_override_rule 120000 (some 50000)).2.1 50000 rfl (by norm_num)⟩,
    ⟨by norm_num,
      (C4_white_payroll_override_rule 90000 (some (-1))).2.2 (-1) rfl (by norm_num)⟩⟩

/-- C5: for every input, the total tax is exactly the sum of the primary
tax, the payroll tax and the fixed insurance, and the payroll tax is
exactly 13% of the white payroll — no rounding anywhere. -/
theorem C5_total_tax_exact_sum (inp : Inputs) :
    (calculate_all inp).total_tax =
      (calculate_all inp).ausn_tax + (calculate_all inp).ndfl_tax
        + (calculate_all inp).derived.fixed_insurance
    ∧ (calculate_all inp).ndfl_tax = (calculate_all inp).derived.white_payroll * 0.13 := by
  exact ⟨rfl, rfl⟩

/-- C6: margin, profitability and burden-vs-turnover are `some` of the
corresponding quotient exactly when turnover is positive and `none`
otherwise; burden-vs-profit is `some` of its quotient exactly when the
pre-tax profit is strictly positive and `none` otherwise.  Undefined ratios
are the explicit `none`, never a number. -/
theorem C6_ratio_guards (inp : Inputs) :
    ((calculate_all inp).margin =
      if inp.turnover_total > 0 then some (inp.gross_profit / inp.turnover_total) else none)
    ∧ ((calculate_all inp).profitability =
      if inp.turnover_total > 0
      then some ((calculate_all inp).profit_before_tax / inp.turnover_total) else none)
    ∧ ((calculate_all inp).tax_burden_vs_turnover =
      if inp.turnover_total > 0
      then some ((calculate_all inp).total_tax / inp.turnover_total) else none)
    ∧ ((calculate_all inp).tax_burden_vs_profit =
      if (calculate_all inp).profit_before_tax > 0
      then some ((calculate_all inp).total_tax / (calculate_all inp).profit_before_tax)
      else none)
    ∧ ((calculate_all inp).margin.isSome ↔ 0 < inp.turnover_total)
    ∧ ((calculate_all inp).profitability.isSome ↔ 0 < inp.turnover_total)
    ∧ ((calculate_all inp).tax_burden_vs_turnover.isSome ↔ 0 < inp.turnover_total)
    ∧ ((calculate_all inp).tax_burden_vs_profit.isSome ↔
        0 < (calculate_all inp).profit_before_tax) := by
  refine ⟨rfl, rfl, rfl, rfl, ?_, ?_, ?_, ?_⟩
  · by_cases h : inp.turnover_total > 0 <;> simp [calculate_all, h]
  · by_cases h : inp.turnover_total > 0 <;> simp [calculate_all, h]
  · by_cases h : inp.turnover_total > 0 <;> simp [calculate_all, h]
  · by_cases h : (calculate_all inp).profit_before_tax > 0 <;>
      simp only [calculate_all] at h ⊢ <;> simp [h]

/-- C7 (code bug): at the failing input `turnover_total = 100`,
`turnover_aggregator = 200`, the body of the validator's try block does
raise the rejection, but the `except Exception: pass` clause swallows it
and the validator returns the value unchanged — the input is accepted. -/
theorem C7_aggregator_validator_swallows_rejection :
    aggregatorCheckTryBlock 200 (some 100) =
      PyResult.raised "aggregator turnover must not exceed total turnover"
    ∧ aggregator_not_more_than_total 200 (some 100) = PyResult.ok 200 := by
  have h : aggregatorCheckTryBlock 200 (some 100) =
      PyResult.raised "aggregator turnover must not exceed total turnover" := by
    simp only [aggregatorCheckTryBlock]
    rw [if_pos (by norm_num)]
  refine ⟨h, ?_⟩
  rw [aggregator_not_more_than_total, h]

/-- The aggregator-vs-total validator never rejects any value at all: the
raised error is always swallowed, so every input reaches the core. -/
theorem aggregator_validator_always_accepts (v : ℚ) (total : Option ℚ) :
    aggregator_not_more_than_total v total = PyResult.ok v := by
  rw [aggregator_not_more_than_total]
  cases aggregatorCheckTryBlock v total <;> rfl

/-- C8: the derived fixed insurance equals the constant 2900/12 for every
input, hence any two calculations agree on it. -/
theorem C8_fixed_insurance_constant (inp inp2 : Inputs) :
    (derive_values inp).fixed_insurance = 2900 / 12
    ∧ (derive_values inp).fixed_insurance = (derive_values inp2).fixed_insurance :=
  ⟨rfl, rfl⟩

/-- C9: money and percent formatting of the undefined value both yield the
dash, and money formatting of 1000000 yields the space-grouped string with
the trailing zeros and decimal point trimmed. -/
theorem C9_formatting_dash_and_grouping :
    format_money none = "-"
    ∧ format_percent none = "-"
    ∧ format_money (some 1000000) = "1 000 000" :=
  ⟨rfl, rfl, by decide⟩

/-- C10: the tax base exceeds the pre-tax profit by exactly
`payroll_total - white_payroll`: the two deductions cover the same fields
except that the tax base substitutes white payroll for total payroll. -/
theorem C10_tax_base_profit_delta (inp : Inputs) :
    (calculate_all inp).taxable_profit - (calculate_all inp).profit_before_tax =
      inp.payroll_total - (calculate_all inp).derived.white_payroll := by
  simp only [calculate_all, calculate_taxable_profit, calculate_expenses]
  ring

end TaxCalc
